import Mathlib

/-!
Verification of the conversational voice-agent backend (`src/main.py`).

The service chains three external collaborators (speech-to-text, text
generation, speech synthesis) and keeps an in-memory per-session chat
transcript.  We shallowly embed the helper functions
(`safe_transcribe_audio`, `safe_generate_llm_response`, `safe_generate_tts`)
and the endpoint handlers (`echo_tts`, `llm_query`, `llm_query_audio`,
`agent_chat`, `get_chat_history`, `clear_chat_history`) as pure Lean
functions.  External network calls are modelled by oracle functions stored in
an `Env` record: each oracle maps the request payload to either a returned
value or a raised exception (`Except`), matching the `try/except` structure
of the Python helpers.  Python truthiness tests on strings and optional
strings (`if transcribe_error:`, `if not text:` …) are modelled by
`truthyOpt` / explicit emptiness tests.  Each handler also returns the list
of observable events it produced (collaborator invocations, transcript
appends, session deletions) so that claims about "collaborator receives zero
calls" and about the session store history are expressible.
-/

namespace VoiceAgent

/-- One message of a session transcript: `{"role": ..., "content": ...}`. -/
structure Turn where
  role : String
  content : String
deriving Repr, DecidableEq

/-- The in-memory `chat_histories : Dict[str, List[Dict[str, str]]]`,
modelled as an association list from session id to transcript. -/
abbrev SessionStore := List (String × List Turn)

/-- Python dict read: first binding of the key, if any. -/
def dictGet (d : SessionStore) (k : String) : Option (List Turn) :=
  match d with
  | [] => none
  | (k2, v) :: rest => if k2 = k then some v else dictGet rest k

/-- Transcript of a session, the empty transcript when the key is absent. -/
def dictGetD (d : SessionStore) (k : String) : List Turn :=
  (dictGet d k).getD []

/-- Python dict write `d[k] = v`: overwrite the binding or add one. -/
def dictSet (d : SessionStore) (k : String) (v : List Turn) : SessionStore :=
  match d with
  | [] => [(k, v)]
  | (k2, w) :: rest => if k2 = k then (k2, v) :: rest else (k2, w) :: dictSet rest k v

/-- Python `del d[k]`: drop every binding of the key. -/
def dictDel (d : SessionStore) (k : String) : SessionStore :=
  match d with
  | [] => []
  | (k2, w) :: rest => if k2 = k then dictDel rest k else (k2, w) :: dictDel rest k

/-- Python `str.strip()`: remove leading and trailing whitespace. -/
def strip (s : String) : String :=
  String.mk (((s.data.dropWhile Char.isWhitespace).reverse.dropWhile Char.isWhitespace).reverse)

/-- Python truthiness of an optional string: `None` and `""` are falsy. -/
def truthyOpt (o : Option String) : Bool :=
  match o with
  | none => false
  | some s => s ≠ ""

/-- Outcome of the raw Murf HTTP call made inside `safe_generate_tts`:
either an HTTP response (status code, optional `audioFile` field, body
text) or a raised exception. -/
inductive TtsExt where
  | resp (status_code : Nat) (audioFile : Option String) (body : String)
  | exn (e : String)

/-- The process environment: configured API keys plus one oracle per
external collaborator.  `transcribe_ext` returns the transcript text
(`Except.ok ""` covers an empty/absent text), `generate_ext` takes the
flattened prompt-plus-context string and returns the model text, and
`tts_ext` returns the raw HTTP outcome. -/
structure Env where
  assemblyai_key : Option String
  gemini_key : Option String
  murf_key : Option String
  transcribe_ext : String → Except String String
  generate_ext : String → Except String String
  tts_ext : String → TtsExt

/-- Observable events of one request: collaborator invocations, transcript
appends and session deletions, in program order. -/
inductive Event where
  | sttCall (audio : String)
  | llmCall (prompt : String) (conversation_history : List Turn)
  | ttsCall (text : String)
  | appended (session_id : String) (t : Turn)
  | deleted (session_id : String)
deriving Repr, DecidableEq

/-- The per-error-type texts of `create_fallback_response`
(`fallback_messages.get(error_type, fallback_messages["general"])`). -/
def fallback_messages (error_type : String) : String :=
  if error_type = "stt" then
    "I\x27m having trouble hearing you right now. Could you please try again?"
  else if error_type = "llm" then
    "I\x27m having difficulty processing your request at the moment. Please try again later."
  else if error_type = "tts" then
    "I\x27m having trouble generating audio right now. Here\x27s my text response instead."
  else
    "I\x27m experiencing technical difficulties. Please try again in a moment."

/-- A JSON response body together with its HTTP status code.  Fields that a
given handler branch does not set are `none`; `audio_url := none` also
covers the explicit `"audio_url": None` of the Python bodies (no claim
distinguishes an absent key from a null one). -/
structure HttpResponse where
  status : Nat := 200
  error : Bool := false
  error_type : Option String := none
  message : Option String := none
  fallback_message : Option String := none
  audio_url : Option String := none
  transcription : Option String := none
  llm_response : Option String := none
  response : Option String := none
  input : Option String := none
  has_fallback : Option Bool := none
  has_llm_fallback : Option Bool := none
  tts_error : Option Bool := none
  session_id : Option String := none
  chat_history : Option (List Turn) := none
deriving Repr, DecidableEq

/-- Embeds `create_fallback_response(message, error_type)`: the standardized
error body.  The HTTP status is attached at each call site, as in the
source (`JSONResponse(content=..., status_code=...)`). -/
def create_fallback_response (message : String) (error_type : String) : HttpResponse :=
  { error := true
    error_type := some error_type
    message := some message
    fallback_message := some (fallback_messages error_type)
    audio_url := none }

/-- Embeds `safe_transcribe_audio`: returns `(transcript_text, None)` on
success and `(None, str(e))` on failure (missing key, raised exception, or
empty transcript text). -/
def safe_transcribe_audio (env : Env) (audio : String) : Option String × Option String :=
  if truthyOpt env.assemblyai_key then
    match env.transcribe_ext audio with
    | Except.error e => (none, some e)
    | Except.ok t => if t = "" then (none, some "Transcription returned empty result") else (some t, none)
  else
    (none, some "AssemblyAI API key not configured")

/-- The `fallback_responses` list of `safe_generate_llm_response`. -/
def fallback_responses : List String :=
  [ "I apologize, but I\x27m having trouble processing your request right now. Could you please try again?"
  , "I\x27m experiencing some technical difficulties. Please rephrase your question and try again."
  , "Sorry, I\x27m unable to generate a proper response at the moment. Please try again later." ]

/-- The substituted text on generation failure: `fallback_responses[0]`. -/
def fallback0 : String := fallback_responses.getD 0 ""

/-- The context string built by `safe_generate_llm_response` when a
non-empty conversation history is present: each prior turn rendered as
`User: ...` / `Assistant: ...`, then the current prompt. -/
def buildContext (conversation_history : List Turn) (prompt : String) : String :=
  (conversation_history.foldl
    (fun acc m =>
      acc ++ (if m.role = "user" then "User" else "Assistant") ++ ": " ++ m.content ++ "\n")
    "")
  ++ "User: " ++ prompt ++ "\nAssistant:"

/-- Embeds `safe_generate_llm_response`: returns `(text, None)` on success
and `(fallback_responses[0], str(e))` on any failure (missing key, raised
exception, or empty model response).  An empty `conversation_history`
models both Python `None` and `[]` (both falsy). -/
def safe_generate_llm_response (env : Env) (prompt : String)
    (conversation_history : List Turn) : String × Option String :=
  if truthyOpt env.gemini_key then
    let ctx := if conversation_history.isEmpty then prompt
               else buildContext conversation_history prompt
    match env.generate_ext ctx with
    | Except.error e => (fallback0, some e)
    | Except.ok t => if t = "" then (fallback0, some "LLM returned empty response") else (t, none)
  else
    (fallback0, some "Gemini API key not configured")

/-- Embeds `safe_generate_tts`: returns `(audio_url, None)` on success and
`(None, str(e))` on failure (missing key, raised exception, non-200 status,
or missing/falsy `audioFile` field). -/
def safe_generate_tts (env : Env) (text : String) : Option String × Option String :=
  if truthyOpt env.murf_key then
    match env.tts_ext text with
    | TtsExt.exn e => (none, some e)
    | TtsExt.resp status_code audioFile body =>
      if status_code = 200 then
        if truthyOpt audioFile then (audioFile, none)
        else (none, some "No audio URL in response")
      else
        (none, some ("TTS API returned status " ++ toString status_code ++ ": " ++ body))
  else
    (none, some "Murf API key not configured")

/-- Embeds the `/tts/echo` handler (`echo_tts`): transcribe, then
synthesize the transcription.  Returns the JSON body with its status code
and the event trace. -/
def echo_tts (env : Env) (audio : String) : HttpResponse × List Event :=
  let tr := safe_transcribe_audio env audio
  if truthyOpt tr.2 then
    ({ create_fallback_response (tr.2.getD "") "stt" with status := 500 },
     [Event.sttCall audio])
  else
    let transcription := tr.1.getD ""
    let tts := safe_generate_tts env transcription
    if truthyOpt tts.2 then
      ({ transcription := some transcription
         error := true
         error_type := some "tts"
         message := some (tts.2.getD "")
         fallback_message := some ("I heard you say: " ++ transcription ++ " (Audio generation failed)")
         audio_url := none },
       [Event.sttCall audio, Event.ttsCall transcription])
    else
      ({ audio_url := tts.1, transcription := some transcription, error := false },
       [Event.sttCall audio, Event.ttsCall transcription])

/-- Embeds the `/llm/query` handler (`llm_query`): reject empty input,
otherwise generate with no conversation context. -/
def llm_query (env : Env) (text : String) : HttpResponse × List Event :=
  if strip text = "" then
    ({ create_fallback_response "Empty text provided" "llm" with status := 400 }, [])
  else
    let g := safe_generate_llm_response env text []
    if truthyOpt g.2 ∧ g.1 = "" then
      ({ create_fallback_response (g.2.getD "") "llm" with status := 500 },
       [Event.llmCall text []])
    else
      ({ response := some g.1
         input := some text
         error := false
         has_fallback := some (truthyOpt g.2) },
       [Event.llmCall text []])

/-- Embeds the `/llm/query/audio` handler (`llm_query_audio`): transcribe,
generate from the transcription, synthesize the generated (or fallback)
text; a synthesis failure and a generation failure each only add their own
flag to the success body. -/
def llm_query_audio (env : Env) (audio : String) : HttpResponse × List Event :=
  let tr := safe_transcribe_audio env audio
  if truthyOpt tr.2 then
    ({ create_fallback_response (tr.2.getD "") "stt" with status := 500 },
     [Event.sttCall audio])
  else
    let transcription := tr.1.getD ""
    let g := safe_generate_llm_response env transcription []
    let tts := safe_generate_tts env g.1
    let base : HttpResponse :=
      { transcription := some transcription
        llm_response := some g.1
        error := false }
    let withTts :=
      if truthyOpt tts.2 then
        { base with
            audio_url := none
            tts_error := some true
            fallback_message := some
              ("I\x27m having trouble generating audio right now. Here\x27s my text response: " ++ g.1) }
      else
        { base with audio_url := tts.1 }
    let final :=
      if truthyOpt g.2 then { withTts with has_llm_fallback := some true } else withTts
    (final, [Event.sttCall audio, Event.llmCall transcription [], Event.ttsCall g.1])

/-- Embeds the `/agent/chat/{session_id}` handler (`agent_chat`):
transcribe, append the user turn, generate using the session transcript
minus the current message, append the assistant turn, synthesize.  Returns
the JSON body, the updated store and the event trace. -/
def agent_chat (env : Env) (store : SessionStore) (session_id : String) (audio : String) :
    HttpResponse × SessionStore × List Event :=
  let tr := safe_transcribe_audio env audio
  if truthyOpt tr.2 then
    ({ create_fallback_response (tr.2.getD "") "stt" with status := 500 },
     store, [Event.sttCall audio])
  else
    let transcription := tr.1.getD ""
    let d0 := if (dictGet store session_id).isSome then store else dictSet store session_id []
    let userTurn : Turn := { role := "user", content := transcription }
    let d1 := dictSet d0 session_id (dictGetD d0 session_id ++ [userTurn])
    let prior := (dictGetD d1 session_id).dropLast
    let g := safe_generate_llm_response env transcription prior
    let asstTurn : Turn := { role := "assistant", content := g.1 }
    let d2 := dictSet d1 session_id (dictGetD d1 session_id ++ [asstTurn])
    let tts := safe_generate_tts env g.1
    let base : HttpResponse :=
      { transcription := some transcription
        llm_response := some g.1
        session_id := some session_id
        chat_history := some (dictGetD d2 session_id)
        error := false }
    let withTts :=
      if truthyOpt tts.2 then
        { base with
            audio_url := none
            tts_error := some true
            fallback_message := some
              ("I\x27m having trouble with audio generation. Here\x27s my response: " ++ g.1) }
      else
        { base with audio_url := tts.1 }
    let final :=
      if truthyOpt g.2 then { withTts with has_llm_fallback := some true } else withTts
    (final, d2,
     [Event.sttCall audio,
      Event.appended session_id userTurn,
      Event.llmCall transcription prior,
      Event.appended session_id asstTurn,
      Event.ttsCall g.1])

/-- Embeds the `GET /agent/chat/{session_id}/history` handler
(`get_chat_history`): the stored transcript, or the empty list for an
unknown session, always with `error=False`. -/
def get_chat_history (store : SessionStore) (session_id : String) : HttpResponse :=
  match dictGet store session_id with
  | some h =>
    { session_id := some session_id, chat_history := some h, error := false }
  | none =>
    { session_id := some session_id, chat_history := some [], error := false }

/-- Embeds the `DELETE /agent/chat/{session_id}/history` handler
(`clear_chat_history`): delete the session when present, and report success
either way. -/
def clear_chat_history (store : SessionStore) (session_id : String) :
    HttpResponse × SessionStore × List Event :=
  let pair :=
    if (dictGet store session_id).isSome then
      (dictDel store session_id, [Event.deleted session_id])
    else
      (store, ([] : List Event))
  ({ session_id := some session_id
     message := some "Chat history cleared"
     error := false },
   pair.1, pair.2)

/-- One request touching the session store: a chat request (with its own
environment, since collaborator outcomes vary per request), a history read,
or a history deletion. -/
inductive StoreOp where
  | chat (env : Env) (session_id : String) (audio : String)
  | history (session_id : String)
  | clear (session_id : String)

/-- Effect of one request on the session store, with its event trace. -/
def stepStore (d : SessionStore) (op : StoreOp) : SessionStore × List Event :=
  match op with
  | StoreOp.chat env sid audio =>
    let r := agent_chat env d sid audio
    (r.2.1, r.2.2)
  | StoreOp.history _ => (d, [])
  | StoreOp.clear sid =>
    let r := clear_chat_history d sid
    (r.2.1, r.2.2)

/-- Runs a sequence of requests against the session store, concatenating
the event traces in order. -/
def runStore (d : SessionStore) (ops : List StoreOp) : SessionStore × List Event :=
  match ops with
  | [] => (d, [])
  | op :: rest =>
    let s := stepStore d op
    let r := runStore s.1 rest
    (r.1, s.2 ++ r.2)

/-- The turns appended to a given session, in trace order. -/
def appendsTo (sid : String) (evs : List Event) : List Turn :=
  evs.filterMap fun e =>
    match e with
    | Event.appended s t => if s = sid then some t else none
    | _ => none

/-- Whether the trace deletes the given session. -/
def deletedIn (sid : String) (evs : List Event) : Bool :=
  evs.any fun e =>
    match e with
    | Event.deleted s => s = sid
    | _ => false

/-- The generation-collaborator invocations of a trace, with the prompt
and conversation context each received. -/
def llmCalls (evs : List Event) : List (String × List Turn) :=
  evs.filterMap fun e =>
    match e with
    | Event.llmCall p h => some (p, h)
    | _ => none

/-- Whether the trace invokes the generation or synthesis collaborator. -/
def hasGenOrTts (evs : List Event) : Bool :=
  evs.any fun e =>
    match e with
    | Event.llmCall _ _ => true
    | Event.ttsCall _ => true
    | _ => false

/-! Basic lemmas about the store primitives and the safe helpers. -/

theorem truthyOpt_eq_true {o : Option String} (h : truthyOpt o = true) : o ≠ none := by
  cases o <;> simp [truthyOpt] at h ⊢

theorem dictGet_set_self (d : SessionStore) (k : String) (v : List Turn) :
    dictGet (dictSet d k v) k = some v := by
  induction d with
  | nil => simp [dictGet, dictSet]
  | cons p rest ih =>
    by_cases h : p.1 = k <;> simp [dictGet, dictSet, h, ih]

theorem dictGet_set_ne (d : SessionStore) (k k2 : String) (v : List Turn) (h : k2 ≠ k) :
    dictGet (dictSet d k v) k2 = dictGet d k2 := by
  induction d with
  | nil => simp [dictGet, dictSet, Ne.symm h]
  | cons p rest ih =>
    obtain ⟨pk, pv⟩ := p
    by_cases h1 : pk = k
    · have hne : pk ≠ k2 := by rw [h1]; exact Ne.symm h
      simp [dictGet, dictSet, h1, hne, h, Ne.symm h]
    · by_cases h2 : pk = k2 <;> simp [dictGet, dictSet, h1, h2, ih, h, Ne.symm h]

theorem dictGet_del_ne (d : SessionStore) (k k2 : String) (h : k2 ≠ k) :
    dictGet (dictDel d k) k2 = dictGet d k2 := by
  induction d with
  | nil => simp [dictDel]
  | cons p rest ih =>
    obtain ⟨pk, pv⟩ := p
    by_cases h1 : pk = k
    · have hne : pk ≠ k2 := by rw [h1]; exact Ne.symm h
      simp [dictGet, dictDel, h1, hne, ih, h, Ne.symm h]
    · by_cases h2 : pk = k2 <;> simp [dictGet, dictDel, h1, h2, ih, h, Ne.symm h]

theorem dictGetD_set_self (d : SessionStore) (k : String) (v : List Turn) :
    dictGetD (dictSet d k v) k = v := by
  simp [dictGetD, dictGet_set_self]

theorem gen_response_ne_empty (env : Env) (p : String) (hist : List Turn) :
    (safe_generate_llm_response env p hist).1 ≠ "" := by
  have hfb : fallback0 ≠ "" := by decide
  by_cases hk : truthyOpt env.gemini_key = true
  · simp only [safe_generate_llm_response, hk, if_true]
    cases hgen : env.generate_ext (if hist.isEmpty = true then p else buildContext hist p) with
    | error e => simpa using hfb
    | ok t => by_cases ht : t = "" <;> simp [ht, hfb]
  · simp [safe_generate_llm_response, hk, hfb]

theorem gen_error_fallback (env : Env) (p : String) (hist : List Turn)
    (h : (safe_generate_llm_response env p hist).2 ≠ none) :
    (safe_generate_llm_response env p hist).1 = fallback0 := by
  by_cases hk : truthyOpt env.gemini_key = true
  · simp only [safe_generate_llm_response, hk, if_true] at h ⊢
    cases hgen : env.generate_ext (if hist.isEmpty = true then p else buildContext hist p) with
    | error e => simp
    | ok t =>
      simp only [hgen] at h ⊢
      by_cases ht : t = "" <;> simp [ht] at h ⊢
  · simp [safe_generate_llm_response, hk]

theorem get_chat_history_fields (store : SessionStore) (sid : String) :
    get_chat_history store sid =
      { session_id := some sid, chat_history := some (dictGetD store sid), error := false } := by
  unfold get_chat_history dictGetD
  cases dictGet store sid <;> rfl

@[simp] theorem truthyOpt_none : truthyOpt none = false := rfl

theorem dictGetD_init (store : SessionStore) (sid : String) :
    dictGetD (if (dictGet store sid).isSome then store else dictSet store sid []) sid
      = dictGetD store sid := by
  cases hg : dictGet store sid <;> simp [dictGetD, hg, dictGet_set_self]

/-- On the success path, `agent_chat` appends exactly the user turn (the
transcription) and the assistant turn (the generated or fallback response,
computed from the prior transcript as context) to the session. -/
theorem agent_chat_getD_self (env : Env) (store : SessionStore) (sid audio : String)
    (htr : truthyOpt (safe_transcribe_audio env audio).2 = false) :
    dictGetD (agent_chat env store sid audio).2.1 sid
      = dictGetD store sid ++
        [⟨"user", (safe_transcribe_audio env audio).1.getD ""⟩,
         ⟨"assistant",
          (safe_generate_llm_response env ((safe_transcribe_audio env audio).1.getD "")
            (dictGetD store sid)).1⟩] := by
  cases hg : dictGet store sid with
  | none =>
    simp [agent_chat, htr, dictGetD, hg, dictGet_set_self, List.dropLast_concat]
  | some L =>
    simp [agent_chat, htr, dictGetD, hg, dictGet_set_self, List.dropLast_concat]

/-- `agent_chat` never touches any other session. -/
theorem agent_chat_get_ne (env : Env) (store : SessionStore) (sid sid2 audio : String)
    (hne : sid2 ≠ sid) :
    dictGet (agent_chat env store sid audio).2.1 sid2 = dictGet store sid2 := by
  by_cases htr : truthyOpt (safe_transcribe_audio env audio).2 = true
  · simp [agent_chat, htr]
  · rw [Bool.not_eq_true] at htr
    cases hg : dictGet store sid <;>
      simp [agent_chat, htr, hg, dictGet_set_ne _ _ _ _ hne, dictGetD]

/-- Event trace of `agent_chat` on the success path. -/
theorem agent_chat_events_eq (env : Env) (store : SessionStore) (sid audio : String)
    (htr : truthyOpt (safe_transcribe_audio env audio).2 = false) :
    (agent_chat env store sid audio).2.2 =
      [Event.sttCall audio,
       Event.appended sid ⟨"user", (safe_transcribe_audio env audio).1.getD ""⟩,
       Event.llmCall ((safe_transcribe_audio env audio).1.getD "") (dictGetD store sid),
       Event.appended sid
         ⟨"assistant",
          (safe_generate_llm_response env ((safe_transcribe_audio env audio).1.getD "")
            (dictGetD store sid)).1⟩,
       Event.ttsCall
         (safe_generate_llm_response env ((safe_transcribe_audio env audio).1.getD "")
           (dictGetD store sid)).1] := by
  cases hg : dictGet store sid with
  | none =>
    simp [agent_chat, htr, dictGetD, hg, dictGet_set_self, List.dropLast_concat]
  | some L =>
    simp [agent_chat, htr, dictGetD, hg, dictGet_set_self, List.dropLast_concat]

/-- On the success path, the response body of `agent_chat` reports
`error=False` and carries the full updated transcript. -/
theorem agent_chat_resp_fields (env : Env) (store : SessionStore) (sid audio : String)
    (htr : truthyOpt (safe_transcribe_audio env audio).2 = false) :
    (agent_chat env store sid audio).1.error = false ∧
    (agent_chat env store sid audio).1.chat_history
      = some (dictGetD (agent_chat env store sid audio).2.1 sid) := by
  rw [agent_chat_getD_self env store sid audio htr]
  cases hg : dictGet store sid with
  | none =>
    constructor <;>
      simp [agent_chat, htr, dictGetD, hg, dictGet_set_self, List.dropLast_concat,
        apply_ite HttpResponse.error, apply_ite HttpResponse.chat_history]
  | some L =>
    constructor <;>
      simp [agent_chat, htr, dictGetD, hg, dictGet_set_self, List.dropLast_concat,
        apply_ite HttpResponse.error, apply_ite HttpResponse.chat_history]

/-! Example environments used to witness the claims: collaborators that all
succeed, and ones where a chosen stage fails. -/

/-- All three collaborators configured and succeeding. -/
def envAllOk : Env :=
  { assemblyai_key := some "aa-key"
    gemini_key := some "gm-key"
    murf_key := some "mf-key"
    transcribe_ext := fun _ => Except.ok "hello there"
    generate_ext := fun _ => Except.ok "sure thing"
    tts_ext := fun _ => TtsExt.resp 200 (some "audio-1.mp3") "" }

/-- Transcription raises; generation and synthesis would succeed. -/
def envSttFail : Env :=
  { envAllOk with transcribe_ext := fun _ => Except.error "assembly down" }

/-- Generation raises; the other collaborators succeed. -/
def envGenFail : Env :=
  { envAllOk with generate_ext := fun _ => Except.error "gemini down" }

/-- Synthesis raises; the other collaborators succeed. -/
def envTtsFail : Env :=
  { envAllOk with tts_ext := fun _ => TtsExt.exn "murf down" }

/-- Generation and synthesis both raise; transcription succeeds. -/
def envGenTtsFail : Env :=
  { envAllOk with
      generate_ext := fun _ => Except.error "gemini down"
      tts_ext := fun _ => TtsExt.exn "murf down" }

/-! Claims. -/

/-- C1 counterexample: audio that transcribes successfully but whose
synthesis fails.  The claim asserts the returned result has request-level
`error=False`; the code in fact sets `"error": True` (with
`error_type="tts"`) in this branch, so the claim as stated is false. -/
theorem c1_echo_error_flag_counterexample :
    safe_transcribe_audio envTtsFail "voice" = (some "hello there", none) ∧
    truthyOpt (safe_generate_tts envTtsFail "hello there").2 = true ∧
    (echo_tts envTtsFail "voice").1.error = true := by
  refine ⟨by decide, by decide, by decide⟩

/-- C1 (amended): in the Echo pipeline, when transcription succeeds and
synthesis fails, the returned result contains the transcribed text, carries
request-level `error=True` with `error_type="tts"` (only the synthesis step
is named as the failing one; the HTTP status stays 200 rather than 500),
and contains a fallback message embedding the transcribed text verbatim. -/
theorem c1_echo_synthesis_failure (env : Env) (audio t : String)
    (h1 : safe_transcribe_audio env audio = (some t, none))
    (h2 : truthyOpt (safe_generate_tts env t).2 = true) :
    (echo_tts env audio).1 =
      { transcription := some t
        error := true
        error_type := some "tts"
        message := some ((safe_generate_tts env t).2.getD "")
        fallback_message := some ("I heard you say: " ++ t ++ " (Audio generation failed)")
        audio_url := none
        status := 200 } ∧
    ∃ pre suf, (echo_tts env audio).1.fallback_message = some (pre ++ t ++ suf) := by
  have hmain : (echo_tts env audio).1 =
      { transcription := some t
        error := true
        error_type := some "tts"
        message := some ((safe_generate_tts env t).2.getD "")
        fallback_message := some ("I heard you say: " ++ t ++ " (Audio generation failed)")
        audio_url := none
        status := 200 } := by
    simp [echo_tts, h1, h2]
  exact ⟨hmain, "I heard you say: ", " (Audio generation failed)", by rw [hmain]⟩

/-- Witness for the amended C1 at a concrete input where transcription
succeeds and synthesis raises. -/
theorem c1_echo_synthesis_failure_witness :
    (echo_tts envTtsFail "voice").1.error = true ∧
    (echo_tts envTtsFail "voice").1.transcription = some "hello there" ∧
    (echo_tts envTtsFail "voice").1.status = 200 ∧
    ∃ pre suf, (echo_tts envTtsFail "voice").1.fallback_message
      = some (pre ++ "hello there" ++ suf) := by
  have h := c1_echo_synthesis_failure envTtsFail "voice" "hello there" (by decide) (by decide)
  exact ⟨by rw [h.1], by rw [h.1], by rw [h.1], h.2⟩

/-- C2: in each pipeline whose first stage is transcription (`echo_tts`,
`llm_query_audio`, `agent_chat`), a transcription failure aborts the
request with the standardized `stt` error body and HTTP status 500, the
generation and synthesis collaborators receive zero calls, and the session
store is untouched. -/
theorem c2_transcription_failure_aborts (env : Env) (audio : String)
    (store : SessionStore) (sid : String)
    (h : truthyOpt (safe_transcribe_audio env audio).2 = true) :
    (echo_tts env audio).1 =
      { create_fallback_response ((safe_transcribe_audio env audio).2.getD "") "stt"
        with status := 500 } ∧
    hasGenOrTts (echo_tts env audio).2 = false ∧
    (llm_query_audio env audio).1 =
      { create_fallback_response ((safe_transcribe_audio env audio).2.getD "") "stt"
        with status := 500 } ∧
    hasGenOrTts (llm_query_audio env audio).2 = false ∧
    (agent_chat env store sid audio).1 =
      { create_fallback_response ((safe_transcribe_audio env audio).2.getD "") "stt"
        with status := 500 } ∧
    (agent_chat env store sid audio).2.1 = store ∧
    hasGenOrTts (agent_chat env store sid audio).2.2 = false := by
  refine ⟨?_, ?_, ?_, ?_, ?_, ?_, ?_⟩ <;>
    simp [echo_tts, llm_query_audio, agent_chat, h, hasGenOrTts]

/-- Witness for C2: a raising transcription collaborator aborts all three
pipelines with the `stt` error body and no downstream calls. -/
theorem c2_transcription_failure_aborts_witness :
    (echo_tts envSttFail "voice").1 =
      { create_fallback_response ((safe_transcribe_audio envSttFail "voice").2.getD "") "stt"
        with status := 500 } ∧
    hasGenOrTts (echo_tts envSttFail "voice").2 = false ∧
    (llm_query_audio envSttFail "voice").1 =
      { create_fallback_response ((safe_transcribe_audio envSttFail "voice").2.getD "") "stt"
        with status := 500 } ∧
    hasGenOrTts (llm_query_audio envSttFail "voice").2 = false ∧
    (agent_chat envSttFail [] "s" "voice").1 =
      { create_fallback_response ((safe_transcribe_audio envSttFail "voice").2.getD "") "stt"
        with status := 500 } ∧
    (agent_chat envSttFail [] "s" "voice").2.1 = [] ∧
    hasGenOrTts (agent_chat envSttFail [] "s" "voice").2.2 = false :=
  c2_transcription_failure_aborts envSttFail "voice" [] "s" (by decide)

/-- C7: in `llm_query_audio`, after a successful transcription the
generation and synthesis failures are flagged independently
(`has_llm_fallback` and `tts_error`), synthesis is attempted on exactly the
text generation produced (real or fallback), the top-level `error` stays
`False` in every such outcome, and both flags can be set on one response. -/
theorem c7_audio_pipeline_independent_flags (env : Env) (audio t : String)
    (h : safe_transcribe_audio env audio = (some t, none)) :
    (llm_query_audio env audio).1.error = false ∧
    (llm_query_audio env audio).1.transcription = some t ∧
    (llm_query_audio env audio).1.llm_response
      = some (safe_generate_llm_response env t []).1 ∧
    (llm_query_audio env audio).1.has_llm_fallback
      = (if truthyOpt (safe_generate_llm_response env t []).2 then some true else none) ∧
    (llm_query_audio env audio).1.tts_error
      = (if truthyOpt (safe_generate_tts env (safe_generate_llm_response env t []).1).2
         then some true else none) ∧
    (llm_query_audio env audio).2
      = [Event.sttCall audio, Event.llmCall t [],
         Event.ttsCall (safe_generate_llm_response env t []).1] ∧
    ((llm_query_audio envGenTtsFail "voice").1.has_llm_fallback = some true ∧
     (llm_query_audio envGenTtsFail "voice").1.tts_error = some true ∧
     (llm_query_audio envGenTtsFail "voice").1.error = false) := by
  have hboth : (llm_query_audio envGenTtsFail "voice").1.has_llm_fallback = some true ∧
      (llm_query_audio envGenTtsFail "voice").1.tts_error = some true ∧
      (llm_query_audio envGenTtsFail "voice").1.error = false := by
    refine ⟨by decide, by decide, by decide⟩
  by_cases hg : truthyOpt (safe_generate_llm_response env t []).2 = true <;>
    by_cases ht : truthyOpt (safe_generate_tts env (safe_generate_llm_response env t []).1).2 = true <;>
    refine ⟨?_, ?_, ?_, ?_, ?_, ?_, hboth⟩ <;>
    simp [llm_query_audio, h, hg, ht,
      apply_ite HttpResponse.error, apply_ite HttpResponse.transcription,
      apply_ite HttpResponse.llm_response, apply_ite HttpResponse.has_llm_fallback,
      apply_ite HttpResponse.tts_error]

/-- Witness for C7 at a concrete input where generation fails and
synthesis of the fallback text also fails. -/
theorem c7_audio_pipeline_independent_flags_witness :
    (llm_query_audio envGenTtsFail "voice").1.error = false ∧
    (llm_query_audio envGenTtsFail "voice").1.transcription = some "hello there" ∧
    (llm_query_audio envGenTtsFail "voice").1.llm_response
      = some (safe_generate_llm_response envGenTtsFail "hello there" []).1 ∧
    (llm_query_audio envGenTtsFail "voice").1.has_llm_fallback
      = (if truthyOpt (safe_generate_llm_response envGenTtsFail "hello there" []).2
         then some true else none) ∧
    (llm_query_audio envGenTtsFail "voice").1.tts_error
      = (if truthyOpt (safe_generate_tts envGenTtsFail
            (safe_generate_llm_response envGenTtsFail "hello there" []).1).2
         then some true else none) ∧
    (llm_query_audio envGenTtsFail "voice").2
      = [Event.sttCall "voice", Event.llmCall "hello there" [],
         Event.ttsCall (safe_generate_llm_response envGenTtsFail "hello there" []).1] ∧
    ((llm_query_audio envGenTtsFail "voice").1.has_llm_fallback = some true ∧
     (llm_query_audio envGenTtsFail "voice").1.tts_error = some true ∧
     (llm_query_audio envGenTtsFail "voice").1.error = false) :=
  c7_audio_pipeline_independent_flags envGenTtsFail "voice" "hello there" (by decide)

/-- C3: for two sequential chat requests on the same (initially empty)
session, the generation call of the second request receives as conversation
context exactly the two turns produced by the first request — its user turn
and its assistant turn — and not the second request's own current user turn
(the context has exactly those two turns, while the current user turn has
already been appended after them). -/
theorem c3_second_request_context (env1 env2 : Env) (store : SessionStore)
    (sid audio1 audio2 t1 t2 : String)
    (h0 : dictGetD store sid = [])
    (h1 : safe_transcribe_audio env1 audio1 = (some t1, none))
    (h2 : safe_transcribe_audio env2 audio2 = (some t2, none)) :
    dictGetD (agent_chat env1 store sid audio1).2.1 sid
      = [⟨"user", t1⟩, ⟨"assistant", (safe_generate_llm_response env1 t1 []).1⟩] ∧
    llmCalls (agent_chat env2 (agent_chat env1 store sid audio1).2.1 sid audio2).2.2
      = [(t2, [⟨"user", t1⟩, ⟨"assistant", (safe_generate_llm_response env1 t1 []).1⟩])] := by
  have htr1 : truthyOpt (safe_transcribe_audio env1 audio1).2 = false := by rw [h1]; rfl
  have htr2 : truthyOpt (safe_transcribe_audio env2 audio2).2 = false := by rw [h2]; rfl
  have hs1 := agent_chat_getD_self env1 store sid audio1 htr1
  rw [h1, h0] at hs1
  simp only [Option.getD_some, List.nil_append] at hs1
  refine ⟨hs1, ?_⟩
  have hev := agent_chat_events_eq env2 (agent_chat env1 store sid audio1).2.1 sid audio2 htr2
  rw [h2] at hev
  simp only [Option.getD_some] at hev
  rw [hev, hs1]
  simp [llmCalls]

/-- Witness for C3: two chat requests on a fresh session; the second
request's single generation call receives exactly the first request's user
and assistant turns as context. -/
theorem c3_second_request_context_witness :
    dictGetD (agent_chat envAllOk [] "s" "v1").2.1 "s"
      = [⟨"user", "hello there"⟩, ⟨"assistant", (safe_generate_llm_response envAllOk "hello there" []).1⟩] ∧
    llmCalls (agent_chat envGenFail (agent_chat envAllOk [] "s" "v1").2.1 "s" "v2").2.2
      = [("hello there",
          [⟨"user", "hello there"⟩, ⟨"assistant", (safe_generate_llm_response envAllOk "hello there" []).1⟩])] :=
  c3_second_request_context envAllOk envGenFail [] "s" "v1" "v2" "hello there" "hello there"
    (by decide) (by decide) (by decide)

/-- C4: for every chat request whose transcription succeeds, exactly one
user turn (the transcription) and exactly one assistant turn (the generated
or fallback response) are appended to the session transcript — with no
hypothesis on whether generation succeeded — and the full updated
transcript is included in the response with `error=False`. -/
theorem c4_chat_appends_turns (env : Env) (store : SessionStore) (sid audio t : String)
    (h : safe_transcribe_audio env audio = (some t, none)) :
    dictGetD (agent_chat env store sid audio).2.1 sid
      = dictGetD store sid ++
        [⟨"user", t⟩,
         ⟨"assistant", (safe_generate_llm_response env t (dictGetD store sid)).1⟩] ∧
    appendsTo sid (agent_chat env store sid audio).2.2
      = [⟨"user", t⟩,
         ⟨"assistant", (safe_generate_llm_response env t (dictGetD store sid)).1⟩] ∧
    (agent_chat env store sid audio).1.chat_history
      = some (dictGetD (agent_chat env store sid audio).2.1 sid) ∧
    (agent_chat env store sid audio).1.error = false := by
  have htr : truthyOpt (safe_transcribe_audio env audio).2 = false := by rw [h]; rfl
  have hs := agent_chat_getD_self env store sid audio htr
  have hev := agent_chat_events_eq env store sid audio htr
  have hresp := agent_chat_resp_fields env store sid audio htr
  rw [h] at hs hev
  simp only [Option.getD_some] at hs hev
  refine ⟨hs, ?_, hresp.2, hresp.1⟩
  rw [hev]
  simp [appendsTo]

/-- Witness for C4: a chat request with successful transcription and
failing generation still appends the user turn and the fallback assistant
turn and returns the updated transcript. -/
theorem c4_chat_appends_turns_witness :
    dictGetD (agent_chat envGenFail [("s", [⟨"user", "old"⟩])] "s" "v1").2.1 "s"
      = dictGetD [("s", [⟨"user", "old"⟩])] "s" ++
        [⟨"user", "hello there"⟩,
         ⟨"assistant",
          (safe_generate_llm_response envGenFail "hello there"
            (dictGetD [("s", [⟨"user", "old"⟩])] "s")).1⟩] ∧
    appendsTo "s" (agent_chat envGenFail [("s", [⟨"user", "old"⟩])] "s" "v1").2.2
      = [⟨"user", "hello there"⟩,
         ⟨"assistant",
          (safe_generate_llm_response envGenFail "hello there"
            (dictGetD [("s", [⟨"user", "old"⟩])] "s")).1⟩] ∧
    (agent_chat envGenFail [("s", [⟨"user", "old"⟩])] "s" "v1").1.chat_history
      = some (dictGetD (agent_chat envGenFail [("s", [⟨"user", "old"⟩])] "s" "v1").2.1 "s") ∧
    (agent_chat envGenFail [("s", [⟨"user", "old"⟩])] "s" "v1").1.error = false :=
  c4_chat_appends_turns envGenFail [("s", [⟨"user", "old"⟩])] "s" "v1" "hello there" (by decide)

/-- C5: in the Generate-only operation (`llm_query`), for every non-empty
input on which generation fails, the fixed fallback sentence
`fallback_responses[0]` is substituted as the response text and the request
still returns successfully (`error=False`, HTTP 200) with
`has_fallback=True`. -/
theorem c5_generate_only_fallback (env : Env) (text : String)
    (h1 : strip text ≠ "")
    (h2 : truthyOpt (safe_generate_llm_response env text []).2 = true) :
    (llm_query env text).1 =
      { response := some fallback0
        input := some text
        error := false
        has_fallback := some true } := by
  have hfb := gen_error_fallback env text [] (truthyOpt_eq_true h2)
  have hne := gen_response_ne_empty env text []
  unfold llm_query
  rw [if_neg h1, if_neg (by simp [hne])]
  simp [hfb, h2]

/-- Witness for C5 at a concrete input: generation fails on non-empty
input `"hi"` and the fallback sentence is returned with `error=False`. -/
theorem c5_generate_only_fallback_witness :
    (llm_query envGenFail "hi").1 =
      { response := some fallback0
        input := some "hi"
        error := false
        has_fallback := some true } :=
  c5_generate_only_fallback envGenFail "hi" (by decide) (by decide)

/-- C6: every empty or whitespace-only text input to the Generate-only
operation (`llm_query`) is rejected with a request-level error of
`error_type="llm"` and HTTP status 400, and the generation collaborator is
never invoked (no `llmCall` event). -/
theorem c6_generate_only_empty_input (env : Env) (text : String)
    (h : strip text = "") :
    (llm_query env text).1.error = true ∧
    (llm_query env text).1.error_type = some "llm" ∧
    (llm_query env text).1.status = 400 ∧
    (llm_query env text).2 = [] := by
  unfold llm_query
  rw [if_pos h]
  exact ⟨rfl, rfl, rfl, rfl⟩

/-- Witness for C6 at a concrete whitespace-only input. -/
theorem c6_generate_only_empty_input_witness :
    (llm_query envAllOk " \t ").1.error = true ∧
    (llm_query envAllOk " \t ").1.error_type = some "llm" ∧
    (llm_query envAllOk " \t ").1.status = 400 ∧
    (llm_query envAllOk " \t ").2 = [] :=
  c6_generate_only_empty_input envAllOk " \t " (by decide)

/-- C9: for a session id never referenced, `get_chat_history` returns the
empty transcript with `error=False`, `clear_chat_history` succeeds as a
no-op (`error=False`, store unchanged, no deletion event), and a second
delete of the same id also reports success. -/
theorem c9_unknown_session (store : SessionStore) (sid : String)
    (h : dictGet store sid = none) :
    get_chat_history store sid =
      { session_id := some sid, chat_history := some [], error := false } ∧
    clear_chat_history store sid =
      ({ session_id := some sid, message := some "Chat history cleared", error := false },
       store, []) ∧
    (clear_chat_history (clear_chat_history store sid).2.1 sid).1.error = false := by
  have h1 : get_chat_history store sid =
      { session_id := some sid, chat_history := some [], error := false } := by
    unfold get_chat_history
    rw [h]
  have h2 : clear_chat_history store sid =
      ({ session_id := some sid, message := some "Chat history cleared", error := false },
       store, []) := by
    unfold clear_chat_history
    rw [h]
    rfl
  refine ⟨h1, h2, ?_⟩
  rw [h2]
  unfold clear_chat_history
  rfl

/-- Witness for C9 on the empty store and a fresh session id. -/
theorem c9_unknown_session_witness :
    get_chat_history [] "fresh" =
      { session_id := some "fresh", chat_history := some [], error := false } ∧
    clear_chat_history [] "fresh" =
      ({ session_id := some "fresh", message := some "Chat history cleared", error := false },
       [], []) ∧
    (clear_chat_history (clear_chat_history [] "fresh").2.1 "fresh").1.error = false :=
  c9_unknown_session [] "fresh" (by decide)

/-- C10: in the Generate-only operation, for every non-empty input the
returned response text is present and non-empty and the request never takes
the 500 branch guarded by `error and not response`, because
`safe_generate_llm_response` always returns the non-empty fallback sentence
on collaborator failure. -/
theorem c10_generate_only_response_nonempty (env : Env) (text : String)
    (h : strip text ≠ "") :
    (llm_query env text).1.status = 200 ∧
    (llm_query env text).1.error = false ∧
    ∃ r, (llm_query env text).1.response = some r ∧ r ≠ "" := by
  have hne := gen_response_ne_empty env text []
  unfold llm_query
  rw [if_neg h, if_neg (by simp [hne])]
  exact ⟨rfl, rfl, (safe_generate_llm_response env text []).1, rfl, hne⟩

/-- Witness for C10 at a concrete non-empty input with a failing
generation collaborator. -/
theorem c10_generate_only_response_nonempty_witness :
    (llm_query envGenFail "hi").1.status = 200 ∧
    (llm_query envGenFail "hi").1.error = false ∧
    ∃ r, (llm_query envGenFail "hi").1.response = some r ∧ r ≠ "" :=
  c10_generate_only_response_nonempty envGenFail "hi" (by decide)

/-! Session-store history: the transcript of a session only ever grows by
appends, in call order, until the session itself is deleted. -/

theorem deletedIn_append (sid : String) (a b : List Event) :
    deletedIn sid (a ++ b) = (deletedIn sid a || deletedIn sid b) :=
  List.any_append

theorem appendsTo_append (sid : String) (a b : List Event) :
    appendsTo sid (a ++ b) = appendsTo sid a ++ appendsTo sid b :=
  List.filterMap_append a b _

theorem stepStore_no_delete (d : SessionStore) (op : StoreOp) (sid : String)
    (h : deletedIn sid (stepStore d op).2 = false) :
    dictGetD (stepStore d op).1 sid = dictGetD d sid ++ appendsTo sid (stepStore d op).2 := by
  cases op with
  | history s => simp [stepStore, appendsTo]
  | clear s =>
    by_cases hmem : (dictGet d s).isSome = true
    · simp only [stepStore, clear_chat_history, hmem, if_true] at h ⊢
      have hne : ¬(s = sid) := by
        intro hEq
        subst hEq
        simp [deletedIn] at h
      simp [appendsTo, dictGetD, dictGet_del_ne d s sid (fun hh => hne hh.symm), hne]
    · simp only [stepStore, clear_chat_history, hmem, if_false] at h ⊢
      simp [appendsTo]
  | chat env s audio =>
    by_cases htr : truthyOpt (safe_transcribe_audio env audio).2 = true
    · simp [stepStore, agent_chat, htr, appendsTo]
    · rw [Bool.not_eq_true] at htr
      by_cases hs : sid = s
      · subst hs
        simp only [stepStore]
        rw [agent_chat_getD_self env d sid audio htr, agent_chat_events_eq env d sid audio htr]
        simp [appendsTo]
      · have hs2 : ¬(s = sid) := fun hh => hs hh.symm
        simp only [stepStore]
        rw [dictGetD, agent_chat_get_ne env d s sid audio hs,
          agent_chat_events_eq env d s audio htr]
        simp [appendsTo, dictGetD, hs2]

theorem runStore_no_delete (ops : List StoreOp) : ∀ (d : SessionStore) (sid : String),
    deletedIn sid (runStore d ops).2 = false →
    dictGetD (runStore d ops).1 sid = dictGetD d sid ++ appendsTo sid (runStore d ops).2 := by
  induction ops with
  | nil =>
    intro d sid h
    simp [runStore, appendsTo]
  | cons op rest ih =>
    intro d sid h
    simp only [runStore] at h ⊢
    rw [deletedIn_append, Bool.or_eq_false_iff] at h
    rw [appendsTo_append, ih (stepStore d op).1 sid h.2,
      stepStore_no_delete d op sid h.1, List.append_assoc]

/-- C8: for every starting store, every sequence of requests and every
session id, as long as no request deletes that session, reading its history
returns exactly its initial turns followed by the turns appended by the
requests, in order and unmutated — no request other than a whole-session
deletion ever removes or modifies an existing turn. -/
theorem c8_transcript_append_only (store : SessionStore) (ops : List StoreOp) (sid : String)
    (h : deletedIn sid (runStore store ops).2 = false) :
    get_chat_history (runStore store ops).1 sid =
      { session_id := some sid
        chat_history := some (dictGetD store sid ++ appendsTo sid (runStore store ops).2)
        error := false } := by
  rw [get_chat_history_fields, runStore_no_delete ops store sid h]

/-- A concrete request sequence: two chats on session `s` around a chat on
and a deletion of session `t`, plus a read. -/
def opsW : List StoreOp :=
  [StoreOp.chat envAllOk "s" "v1",
   StoreOp.chat envAllOk "t" "x",
   StoreOp.clear "t",
   StoreOp.history "s",
   StoreOp.chat envGenFail "s" "v2"]

/-- Witness for C8 on the concrete sequence `opsW`: session `s` is never
deleted, and its history read returns exactly the appended turns. -/
theorem c8_transcript_append_only_witness :
    deletedIn "s" (runStore [] opsW).2 = false ∧
    get_chat_history (runStore [] opsW).1 "s" =
      { session_id := some "s"
        chat_history := some (dictGetD [] "s" ++ appendsTo "s" (runStore [] opsW).2)
        error := false } :=
  ⟨by decide, c8_transcript_append_only [] opsW "s" (by decide)⟩

end VoiceAgent
